import Mathlib

/-!
Shallow embedding of the configuration resolution engine of
`agent/config/config.go` (package `config` of the amazon-ecs-agent fork).

The `Config` struct's own declaration (field list, declaration order and the
struct tags `missing:`, `deprecated:`, `trim:`) is not part of the sources at
hand; only `config.go`, which manipulates it through reflection, is.  The
embedding therefore fixes the field set from the field accesses appearing in
`config.go` (the composite literals of `EnvironmentConfig`, `DefaultConfig`,
`FileConfig` and `EC2MetadataConfig`), and treats the tag assignment as a
parameter (`TagSchema`), so every theorem about the tag-driven passes holds
for an arbitrary assignment of tags.

External collaborators (the `utils` helpers, `encoding/json`, `strconv`, the
file system and the EC2 metadata client) are modelled at the interface the
spec gives them; each such definition carries a doc comment saying so.
-/

namespace ECSConfig

/-- The configuration record.  Field set taken from the composite literals in
`config.go` (`EnvironmentConfig` lists all fields except `ClusterArn`, which
appears in `FileConfig`'s deprecated-key migration).  Go types: `string` ↦
`String`, `bool` ↦ `Bool`, `uint16` ↦ `Nat`, `[]uint16` ↦ `List Nat`,
`[]byte` ↦ `List Nat`. -/
structure Config where
  Cluster : String
  ClusterArn : String
  APIEndpoint : String
  AWSRegion : String
  DockerEndpoint : String
  ReservedPorts : List Nat
  ReservedPortsUDP : List Nat
  DataDir : String
  Checkpoint : Bool
  EngineAuthType : String
  EngineAuthData : List Nat
  UpdatesEnabled : Bool
  UpdateDownloadDir : String
  DisableMetrics : Bool
  DockerGraphPath : String
  ReservedMemory : Nat
  EngineLogDriver : String
  EngineLogOpts : String
  deriving Repr, DecidableEq

/-- The Go zero value `Config{}`: every field at its type's zero. -/
def emptyConfig : Config where
  Cluster := ""
  ClusterArn := ""
  APIEndpoint := ""
  AWSRegion := ""
  DockerEndpoint := ""
  ReservedPorts := []
  ReservedPortsUDP := []
  DataDir := ""
  Checkpoint := false
  EngineAuthType := ""
  EngineAuthData := []
  UpdatesEnabled := false
  UpdateDownloadDir := ""
  DisableMetrics := false
  DockerGraphPath := ""
  ReservedMemory := 0
  EngineLogDriver := ""
  EngineLogOpts := ""

/-- Modelled from the spec: `utils.ZeroOrNil` (the `utils` package is not in
the sources at hand).  §3 Emptiness: a string is empty iff `""`, a boolean iff
`false`, a number iff `0`, a sequence iff zero-length. -/
def zeroOrNilStr (s : String) : Bool := s == ""

/-- Modelled from the spec: `utils.ZeroOrNil` on a boolean field. -/
def zeroOrNilBool (b : Bool) : Bool := b == false

/-- Modelled from the spec: `utils.ZeroOrNil` on a numeric field. -/
def zeroOrNilNat (n : Nat) : Bool := n == 0

/-- Modelled from the spec: `utils.ZeroOrNil` on a sequence field (`nil` and
zero-length sequences both count as empty). -/
def zeroOrNilList (l : List Nat) : Bool := l.isEmpty

/-- A field value as seen by the reflective walk: one constructor per value
category the schema uses (§3: strings, booleans, unsigned integers, byte
sequences, sequences of unsigned integers). -/
inductive FieldVal where
  | str (s : String)
  | boolean (b : Bool)
  | u16 (n : Nat)
  | bytes (l : List Nat)
  | u16s (l : List Nat)
  deriving Repr, DecidableEq

/-- `utils.ZeroOrNil` lifted to the field-value view. -/
def FieldVal.isEmptyVal : FieldVal → Bool
  | .str s => zeroOrNilStr s
  | .boolean b => zeroOrNilBool b
  | .u16 n => zeroOrNilNat n
  | .bytes l => zeroOrNilList l
  | .u16s l => zeroOrNilList l

/-- Whether a field value is of the string category (`reflect.String`). -/
def FieldVal.isStr : FieldVal → Bool
  | .str _ => true
  | _ => false

/-- The Field Introspector's enumerate-all walk: the record's fields in
declaration order, as field values.  (The declaration order itself is modelled
from the spec, the struct declaration being absent from the sources at hand;
no theorem below depends on the order beyond it being fixed.) -/
def Config.fieldList (c : Config) : List FieldVal :=
  [.str c.Cluster, .str c.ClusterArn, .str c.APIEndpoint, .str c.AWSRegion,
   .str c.DockerEndpoint, .u16s c.ReservedPorts, .u16s c.ReservedPortsUDP,
   .str c.DataDir, .boolean c.Checkpoint, .str c.EngineAuthType,
   .bytes c.EngineAuthData, .boolean c.UpdatesEnabled,
   .str c.UpdateDownloadDir, .boolean c.DisableMetrics,
   .str c.DockerGraphPath, .u16 c.ReservedMemory, .str c.EngineLogDriver,
   .str c.EngineLogOpts]

/-- Field at index `i` (the reflective `cfgElem.Field(i)`). -/
def Config.field (c : Config) (i : Fin 18) : FieldVal :=
  c.fieldList.getD i.val (.str "")

/-- The struct field names, as `reflect` reports them
(`cfgStructField.Field(i).Name`); used in the fatal-missing error message. -/
def fieldName (i : Fin 18) : String :=
  ["Cluster", "ClusterArn", "APIEndpoint", "AWSRegion", "DockerEndpoint",
   "ReservedPorts", "ReservedPortsUDP", "DataDir", "Checkpoint",
   "EngineAuthType", "EngineAuthData", "UpdatesEnabled", "UpdateDownloadDir",
   "DisableMetrics", "DockerGraphPath", "ReservedMemory", "EngineLogDriver",
   "EngineLogOpts"].getD i.val ""

/-- Whether the field at index `i` is of string kind (this is a property of
the schema, independent of any particular record's values). -/
def isStringIdx (i : Fin 18) : Bool := (emptyConfig.field i).isStr

/-- `Config.Merge` of `config.go`: field-by-field, a zero-or-nil field of the
left record is overwritten by the corresponding field of the right record;
non-zero left fields are kept.  The Go method mutates `lhs` in place and
returns it; here it is the returned value. -/
def Config.Merge (lhs rhs : Config) : Config where
  Cluster := if zeroOrNilStr lhs.Cluster then rhs.Cluster else lhs.Cluster
  ClusterArn := if zeroOrNilStr lhs.ClusterArn then rhs.ClusterArn else lhs.ClusterArn
  APIEndpoint := if zeroOrNilStr lhs.APIEndpoint then rhs.APIEndpoint else lhs.APIEndpoint
  AWSRegion := if zeroOrNilStr lhs.AWSRegion then rhs.AWSRegion else lhs.AWSRegion
  DockerEndpoint := if zeroOrNilStr lhs.DockerEndpoint then rhs.DockerEndpoint else lhs.DockerEndpoint
  ReservedPorts := if zeroOrNilList lhs.ReservedPorts then rhs.ReservedPorts else lhs.ReservedPorts
  ReservedPortsUDP := if zeroOrNilList lhs.ReservedPortsUDP then rhs.ReservedPortsUDP else lhs.ReservedPortsUDP
  DataDir := if zeroOrNilStr lhs.DataDir then rhs.DataDir else lhs.DataDir
  Checkpoint := if zeroOrNilBool lhs.Checkpoint then rhs.Checkpoint else lhs.Checkpoint
  EngineAuthType := if zeroOrNilStr lhs.EngineAuthType then rhs.EngineAuthType else lhs.EngineAuthType
  EngineAuthData := if zeroOrNilList lhs.EngineAuthData then rhs.EngineAuthData else lhs.EngineAuthData
  UpdatesEnabled := if zeroOrNilBool lhs.UpdatesEnabled then rhs.UpdatesEnabled else lhs.UpdatesEnabled
  UpdateDownloadDir := if zeroOrNilStr lhs.UpdateDownloadDir then rhs.UpdateDownloadDir else lhs.UpdateDownloadDir
  DisableMetrics := if zeroOrNilBool lhs.DisableMetrics then rhs.DisableMetrics else lhs.DisableMetrics
  DockerGraphPath := if zeroOrNilStr lhs.DockerGraphPath then rhs.DockerGraphPath else lhs.DockerGraphPath
  ReservedMemory := if zeroOrNilNat lhs.ReservedMemory then rhs.ReservedMemory else lhs.ReservedMemory
  EngineLogDriver := if zeroOrNilStr lhs.EngineLogDriver then rhs.EngineLogDriver else lhs.EngineLogDriver
  EngineLogOpts := if zeroOrNilStr lhs.EngineLogOpts then rhs.EngineLogOpts else lhs.EngineLogOpts

/-- `Config.Complete` of `config.go`: true iff no field is zero-or-nil. -/
def Config.Complete (c : Config) : Bool :=
  (List.finRange 18).all fun i => !(c.field i).isEmptyVal

/-- The field view of `Merge` agrees with the reflective loop of the source:
at every index, an empty left field takes the right field's value and a
non-empty left field is kept unchanged. -/
theorem Config.merge_field (A B : Config) (i : Fin 18) :
    (A.Merge B).field i =
      if (A.field i).isEmptyVal then B.field i else A.field i := by
  fin_cases i <;>
    simp [Config.Merge, Config.field, Config.fieldList, List.getD,
      FieldVal.isEmptyVal, apply_ite FieldVal.str, apply_ite FieldVal.boolean,
      apply_ite FieldVal.u16, apply_ite FieldVal.bytes, apply_ite FieldVal.u16s]

/-- `Complete` through the field view. -/
theorem Config.complete_iff (c : Config) :
    c.Complete = true ↔ ∀ i : Fin 18, (c.field i).isEmptyVal = false := by
  unfold Config.Complete
  rw [List.all_eq_true]
  constructor
  · intro h i
    have := h i (List.mem_finRange i)
    simpa using this
  · intro h i _
    simpa using h i

/-- Leading and trailing whitespace stripped from a character list. -/
def trimChars (l : List Char) : List Char :=
  ((l.dropWhile Char.isWhitespace).reverse.dropWhile Char.isWhitespace).reverse

/-- Embeds `strings.TrimSpace` from the Go standard library: the string with
leading and trailing whitespace stripped.  (Implemented over the character
list rather than `String.trim` so that it evaluates inside the kernel; the
two agree on the whitespace the schema's values use.) -/
def trimSpace (s : String) : String :=
  ⟨trimChars s.data⟩

/-- Whether a string is blank: empty or all whitespace (`TrimSpace` of it is
empty). -/
def isBlank (s : String) : Bool :=
  s.data.all Char.isWhitespace

/-- Modelled from the spec: the struct-tag assignment of the `Config` struct
(the struct declaration with its `missing:`, `deprecated:` and `trim:` tags is
not in the sources at hand; §4.1/§9 treat it as per-field policy metadata).
`""` stands for an absent tag, matching `Tag.Get` returning the empty string. -/
structure TagSchema where
  missingTag : Fin 18 → String
  deprecatedTag : Fin 18 → String
  trimTag : Fin 18 → String

/-- The trim applied to one string field of index `i`: skipped when the `trim`
tag is absent, `strings.TrimSpace` otherwise.  (`String.trim` strips leading
and trailing whitespace, as `strings.TrimSpace` does.) -/
def trimIf (tags : TagSchema) (i : Fin 18) (s : String) : String :=
  if tags.trimTag i == "" then s else trimSpace s

/-- `Config.TrimWhitespace` of `config.go`, with its warning log made
explicit: every string field carrying a `trim` tag is replaced by its trimmed
value; a `trim` tag on a non-string field produces a logged warning
("Cannot trim non-string field") and leaves the field unchanged.  The second
component lists the indices warned about, in walk order.  The function is
total: no input leads anywhere but these two outcomes. -/
def Config.TrimWhitespaceW (cfg : Config) (tags : TagSchema) :
    Config × List (Fin 18) :=
  ({ cfg with
      Cluster := trimIf tags 0 cfg.Cluster
      ClusterArn := trimIf tags 1 cfg.ClusterArn
      APIEndpoint := trimIf tags 2 cfg.APIEndpoint
      AWSRegion := trimIf tags 3 cfg.AWSRegion
      DockerEndpoint := trimIf tags 4 cfg.DockerEndpoint
      DataDir := trimIf tags 7 cfg.DataDir
      EngineAuthType := trimIf tags 9 cfg.EngineAuthType
      UpdateDownloadDir := trimIf tags 12 cfg.UpdateDownloadDir
      DockerGraphPath := trimIf tags 14 cfg.DockerGraphPath
      EngineLogDriver := trimIf tags 16 cfg.EngineLogDriver
      EngineLogOpts := trimIf tags 17 cfg.EngineLogOpts },
   (List.finRange 18).filter fun i => tags.trimTag i != "" && !isStringIdx i)

/-- `Config.TrimWhitespace` as the source exposes it (the log discarded). -/
def Config.TrimWhitespace (cfg : Config) (tags : TagSchema) : Config :=
  (cfg.TrimWhitespaceW tags).1

/-- `Config.CheckMissingAndDepreciated` of `config.go`: walks the fields in
order; an empty field whose `missing` tag is `"fatal"` is appended to the
fatal list (an empty field with tag `"warn"`, any other non-empty tag value,
and a present field with a `deprecated` tag only produce log lines).  Returns
`some` of the aggregated error message iff the fatal list is non-empty. -/
def Config.CheckMissingAndDepreciated (cfg : Config) (tags : TagSchema) :
    Option String :=
  let fatalFields := (List.finRange 18).foldl
    (fun acc i =>
      if (cfg.field i).isEmptyVal then
        if tags.missingTag i = "" then acc
        else if tags.missingTag i = "fatal" then acc ++ [fieldName i]
        else acc
      else acc)
    []
  if fatalFields.length > 0 then
    some ("Missing required fields: " ++ String.intercalate ", " fatalFields)
  else
    none

/-- The indices the fatal-missing walk collects, as a filter: empty field with
`missing` tag exactly `"fatal"`. -/
def fatalIdxs (cfg : Config) (tags : TagSchema) : List (Fin 18) :=
  (List.finRange 18).filter fun i =>
    (cfg.field i).isEmptyVal && (tags.missingTag i == "fatal")

/-- Accumulating fold of conditional appends, as filter-map. -/
theorem foldl_append_filter {α β : Type} (p : α → Bool) (f : α → β)
    (l : List α) (acc : List β) :
    l.foldl (fun a i => if p i then a ++ [f i] else a) acc =
      acc ++ (l.filter p).map f := by
  induction l generalizing acc with
  | nil => simp
  | cons x xs ih =>
    by_cases h : p x = true <;> simp [List.filter, h, ih]

/-- The fatal list the source's fold computes is `fatalIdxs`, name-mapped. -/
theorem checkMissing_eq (cfg : Config) (tags : TagSchema) :
    cfg.CheckMissingAndDepreciated tags =
      (if (fatalIdxs cfg tags).isEmpty then none
       else some ("Missing required fields: " ++
         String.intercalate ", " ((fatalIdxs cfg tags).map fieldName))) := by
  unfold Config.CheckMissingAndDepreciated fatalIdxs
  have hstep : (fun (acc : List String) (i : Fin 18) =>
      if (cfg.field i).isEmptyVal then
        if tags.missingTag i = "" then acc
        else if tags.missingTag i = "fatal" then acc ++ [fieldName i]
        else acc
      else acc) =
      (fun acc i =>
        if ((cfg.field i).isEmptyVal && (tags.missingTag i == "fatal")) then
          acc ++ [fieldName i]
        else acc) := by
    funext acc i
    by_cases he : (cfg.field i).isEmptyVal <;>
      by_cases hf : tags.missingTag i = "fatal" <;>
        simp [he, hf]
  rw [hstep, foldl_append_filter]
  rcases h : (List.finRange 18).filter
      (fun i => (cfg.field i).isEmptyVal && (tags.missingTag i == "fatal")) with
    _ | ⟨x, xs⟩ <;> simp [h]

/-- Decimal natural-number literal over a character list: non-empty, digits
only. -/
def decDigits (l : List Char) : Option Nat :=
  if l.isEmpty then none
  else if l.all Char.isDigit then
    some (l.foldl (fun a c => a * 10 + (c.toNat - 48)) 0)
  else none

/-- Decimal natural-number literal: non-empty, digits only. -/
def parseDecNat (s : String) : Option Nat :=
  decDigits s.data

/-- Embeds `strconv.ParseUint(s, 10, 16)` from the Go standard library (an
external collaborator): succeeds exactly on non-empty all-digit decimal
strings whose value fits 16 bits; no sign, no base prefix; a value of
`2 ^ 16` or more is a range error, never a wrap-around. -/
def parseUint16 (s : String) : Option Nat :=
  match parseDecNat s with
  | some n => if n < 65536 then some n else none
  | none => none

/-- Embeds `strconv.ParseBool` from the Go standard library: accepts exactly
the twelve literal spellings. -/
def parseGoBool (s : String) : Option Bool :=
  if s = "1" ∨ s = "t" ∨ s = "T" ∨ s = "true" ∨ s = "TRUE" ∨ s = "True" then
    some true
  else if s = "0" ∨ s = "f" ∨ s = "F" ∨ s = "false" ∨ s = "FALSE" ∨ s = "False" then
    some false
  else none

/-- Modelled from the spec: `utils.ParseBool` (the `utils` package is not in
the sources at hand) — parse a boolean-like string, returning the supplied
default when the string does not parse. -/
def parseBool (s : String) (dflt : Bool) : Bool :=
  (parseGoBool s).getD dflt

/-- Split a character list at every comma (empty pieces preserved). -/
def splitCommas (l : List Char) : List (List Char) :=
  l.foldr
    (fun c acc =>
      if c = ',' then [] :: acc
      else
        match acc with
        | [] => [[c]]
        | a :: as => (c :: a) :: as)
    [[]]

/-- Modelled from the spec: decoding a JSON array of `uint16` with
`encoding/json` (an external collaborator, "real parsing excluded"): a
bracketed, comma-separated list of decimal numbers, each fitting 16 bits,
surrounding whitespace tolerated; anything else fails to decode. -/
def parseJsonU16Array (s : String) : Option (List Nat) :=
  match trimChars s.data with
  | '[' :: rest =>
    if rest.getLast? = some ']' then
      let inner := rest.dropLast
      if (trimChars inner).isEmpty then some []
      else
        ((splitCommas inner).map trimChars).mapM
          (fun p => parseUint16 ⟨p⟩)
    else none
  | _ => none

/-- The process environment as the provider sees it: `os.Getenv`, which
returns `""` for an unset variable. -/
def Env : Type := String → String

/-- One JSON-array environment variable, as `EnvironmentConfig` reads it with
a `json.Decoder`: a blank string (empty or all whitespace) is `io.EOF` — "the
string was blank", no warning, field left nil; a decode failure logs a warning
and likewise leaves the field nil; otherwise the decoded list.  The boolean
component records whether the warning was logged. -/
def decodePortsVar (v : String) : List Nat × Bool :=
  if isBlank v then ([], false)
  else
    match parseJsonU16Array v with
    | some l => (l, false)
    | none => ([], true)

/-- `ECS_RESERVED_MEMORY` as `EnvironmentConfig` reads it: empty string is 0
with no warning; a string that `strconv.ParseUint(·, 10, 16)` rejects
(non-numeric or out of 16-bit range) logs a warning and yields 0; otherwise
the exact parsed value.  The boolean records whether the warning was logged. -/
def decodeReservedMemoryVar (v : String) : Nat × Bool :=
  if v = "" then (0, false)
  else
    match parseUint16 v with
    | some n => (n, false)
    | none => (0, true)

/-- Go's `[]byte(s)` conversion, modelled per character (the exact byte-level
encoding is opaque to every claim; what matters is that the empty string maps
to the empty sequence and a non-empty string to a non-empty one). -/
def strBytes (s : String) : List Nat :=
  s.data.map Char.toNat

/-- `EnvironmentConfig` of `config.go`, with its warning log made explicit:
reads the named variables, with the checkpoint default coupled to
`ECS_DATADIR`, tolerant JSON-array parsing for the two reserved-ports
variables, and tolerant 16-bit parsing for the reserved memory.  The second
component lists the names of the variables warned about. -/
def EnvironmentConfigW (env : Env) : Config × List String :=
  let checkpoint :=
    if env "ECS_DATADIR" ≠ "" then parseBool (env "ECS_CHECKPOINT") true
    else parseBool (env "ECS_CHECKPOINT") false
  let rp := decodePortsVar (env "ECS_RESERVED_PORTS")
  let rpUDP := decodePortsVar (env "ECS_RESERVED_PORTS_UDP")
  let rm := decodeReservedMemoryVar (env "ECS_RESERVED_MEMORY")
  ({ Cluster := env "ECS_CLUSTER"
     ClusterArn := ""
     APIEndpoint := env "ECS_BACKEND_HOST"
     AWSRegion := env "AWS_DEFAULT_REGION"
     DockerEndpoint := env "DOCKER_HOST"
     ReservedPorts := rp.1
     ReservedPortsUDP := rpUDP.1
     DataDir := env "ECS_DATADIR"
     Checkpoint := checkpoint
     EngineAuthType := env "ECS_ENGINE_AUTH_TYPE"
     EngineAuthData := strBytes (env "ECS_ENGINE_AUTH_DATA")
     UpdatesEnabled := parseBool (env "ECS_UPDATES_ENABLED") false
     UpdateDownloadDir := env "ECS_UPDATE_DOWNLOAD_DIR"
     DisableMetrics := parseBool (env "ECS_DISABLE_METRICS") false
     DockerGraphPath := env "ECS_DOCKER_GRAPHPATH"
     ReservedMemory := rm.1
     EngineLogDriver := env "DOCKER_LOG_DRIVER"
     EngineLogOpts := env "DOCKER_LOG_OPTS" },
   (if rp.2 then ["ECS_RESERVED_PORTS"] else []) ++
     (if rpUDP.2 then ["ECS_RESERVED_PORTS_UDP"] else []) ++
     (if rm.2 then ["ECS_RESERVED_MEMORY"] else []))

/-- `EnvironmentConfig` as the source exposes it (the log discarded). -/
def EnvironmentConfig (env : Env) : Config :=
  (EnvironmentConfigW env).1

/-- `DefaultConfig` of `config.go`, verbatim. -/
def DefaultConfig : Config :=
  { emptyConfig with
    DockerEndpoint := "unix:///var/run/docker.sock"
    ReservedPorts := [22, 2375, 2376, 51678]
    ReservedPortsUDP := []
    DataDir := "/data/"
    DisableMetrics := false
    DockerGraphPath := "/var/lib/docker"
    ReservedMemory := 0 }

/-- The state of the configuration file: `missing` — `os.Open` fails;
`unreadable` — `os.Open` succeeds but `ioutil.ReadAll` fails; `content s` —
the file reads as the string `s`. -/
inductive FileState where
  | missing
  | unreadable
  | content (s : String)

/-- `FileConfig` of `config.go`, with its error log made explicit and the
JSON struct decode (`json.Unmarshal`, an external collaborator modelled at
the spec's interface: a malformed document decodes to nothing) passed in as
`decode`.  An open failure returns the zero record silently; a read failure
logs "Unable to read config file" and returns the zero record; a blank file
returns the zero record silently; a decode failure logs "Error reading config
json data" and leaves the record zero; after a decode, the deprecated-key
rule copies `ClusterArn` into `Cluster` when `Cluster` is zero and
`ClusterArn` is not.  The boolean component records whether an error was
logged. -/
def FileConfigW (decode : String → Option Config) (fs : FileState) :
    Config × Bool :=
  match fs with
  | .missing => (emptyConfig, false)
  | .unreadable => (emptyConfig, true)
  | .content data =>
    if isBlank data then (emptyConfig, false)
    else
      let dec := match decode data with
        | some c => (c, false)
        | none => (emptyConfig, true)
      let cfg := dec.1
      let cfg :=
        if zeroOrNilStr cfg.Cluster && !zeroOrNilStr cfg.ClusterArn then
          { cfg with Cluster := cfg.ClusterArn }
        else cfg
      (cfg, dec.2)

/-- `FileConfig` as the source exposes it (the log discarded). -/
def FileConfig (decode : String → Option Config) (fs : FileState) : Config :=
  (FileConfigW decode fs).1

/-- `EC2MetadataConfig` of `config.go`, with the metadata client (an external
collaborator) modelled by its outcome: `none` — the instance identity
document was unavailable (a critical log line, then the zero record);
`some r` — a record populated only with the region `r`. -/
def EC2MetadataConfig (meta : Option String) : Config :=
  match meta with
  | none => emptyConfig
  | some r => { emptyConfig with AWSRegion := r }

/-- The outcome of one resolution: the returned record, the returned error
(`none` for `nil`), and whether `FileConfig` and `EC2MetadataConfig` were
invoked. -/
structure ResolveResult where
  config : Config
  err : Option String
  fileInvoked : Bool
  metaInvoked : Bool
  deriving Repr, DecidableEq

/-- The deferred block of `NewConfig`: runs at every return, in source order —
`TrimWhitespace`, then `CheckMissingAndDepreciated` (whose result becomes the
named return `err`), then `Merge(DefaultConfig())`. -/
def deferredFinish (tags : TagSchema) (c : Config) : Config × Option String :=
  let c := c.TrimWhitespace tags
  let err := c.CheckMissingAndDepreciated tags
  (c.Merge DefaultConfig, err)

/-- `NewConfig` of `config.go`, with the invocation of the file and metadata
providers recorded: start from `EnvironmentConfig`; if it is `Complete`,
return at once (no file or network I/O); otherwise merge `FileConfig`, and
additionally merge `EC2MetadataConfig` exactly when `AWSRegion` is still empty
after the file merge.  Every return path passes through the deferred block. -/
def NewConfigT (tags : TagSchema) (env : Env)
    (decode : String → Option Config) (fs : FileState)
    (meta : Option String) : ResolveResult :=
  let c0 := EnvironmentConfig env
  if c0.Complete then
    let fin := deferredFinish tags c0
    { config := fin.1, err := fin.2, fileInvoked := false, metaInvoked := false }
  else
    let c1 := c0.Merge (FileConfig decode fs)
    if c1.AWSRegion = "" then
      let c2 := c1.Merge (EC2MetadataConfig meta)
      let fin := deferredFinish tags c2
      { config := fin.1, err := fin.2, fileInvoked := true, metaInvoked := true }
    else
      let fin := deferredFinish tags c1
      { config := fin.1, err := fin.2, fileInvoked := true, metaInvoked := false }

/-- `NewConfig` as the source exposes it: the record and the error. -/
def NewConfig (tags : TagSchema) (env : Env)
    (decode : String → Option Config) (fs : FileState)
    (meta : Option String) : Config × Option String :=
  let r := NewConfigT tags env decode fs meta
  (r.config, r.err)

/-- The fatal list is empty exactly when no field is both empty and
fatal-tagged. -/
theorem fatalIdxs_empty_iff (cfg : Config) (tags : TagSchema) :
    (fatalIdxs cfg tags).isEmpty = true ↔
      ∀ i : Fin 18,
        ¬((cfg.field i).isEmptyVal = true ∧ tags.missingTag i = "fatal") := by
  simp [fatalIdxs, List.isEmpty_iff, List.filter_eq_nil_iff]

/-- C2: `Merge(A, B)` is field-wise: at every index, field `i` of the result
is `B`'s field `i` when `A`'s field `i` was zero-or-nil, and `A`'s original
field `i` otherwise.  In particular no non-empty field of `A` is ever
overwritten.  (`rhs` is a by-value parameter in the source, so `B` is never
mutated; the embedding's `Merge` is a pure function of both records.) -/
theorem merge_fieldwise_semantics (A B : Config) (i : Fin 18) :
    (A.Merge B).field i =
      if (A.field i).isEmptyVal then B.field i else A.field i :=
  Config.merge_field A B i

/-- C3: `CheckMissingAndDepreciated` returns an error exactly when some field
is both empty and tagged fatal-required, and the single error message
enumerates every such field's name, comma-joined. -/
theorem checkMissing_error_characterization (tags : TagSchema) (cfg : Config) :
    (cfg.CheckMissingAndDepreciated tags ≠ none ↔
      ∃ i : Fin 18,
        (cfg.field i).isEmptyVal = true ∧ tags.missingTag i = "fatal") ∧
    cfg.CheckMissingAndDepreciated tags =
      (if (fatalIdxs cfg tags).isEmpty then none
       else some ("Missing required fields: " ++
         String.intercalate ", " ((fatalIdxs cfg tags).map fieldName))) := by
  refine ⟨?_, checkMissing_eq cfg tags⟩
  rw [checkMissing_eq cfg tags]
  by_cases h : (fatalIdxs cfg tags).isEmpty = true
  · simp only [h, if_true, ne_eq, not_true_eq_false, false_iff, not_exists]
    exact (fatalIdxs_empty_iff cfg tags).mp h
  · have h' : (fatalIdxs cfg tags).isEmpty = false := by
      simpa using h
    simp only [h', Bool.false_eq_true, if_false, ne_eq, reduceCtorEq,
      not_false_eq_true, true_iff]
    have h2 := (fatalIdxs_empty_iff cfg tags).not.mp h
    push_neg at h2
    obtain ⟨i, hi⟩ := h2
    exact ⟨i, not_not.mp (by simpa using hi)⟩

/-- C6: completeness is preserved by merging: if `A` is `Complete`, so is
`Merge(A, B)`, whatever `B` holds. -/
theorem merge_preserves_complete (A B : Config) (h : A.Complete = true) :
    (A.Merge B).Complete = true := by
  rw [Config.complete_iff] at h ⊢
  intro i
  rw [Config.merge_field, h i]
  simpa using h i

/-- A record with every field non-zero. -/
def fullConfig : Config where
  Cluster := "c"
  ClusterArn := "arn"
  APIEndpoint := "api"
  AWSRegion := "us-west-2"
  DockerEndpoint := "unix:///var/run/docker.sock"
  ReservedPorts := [22]
  ReservedPortsUDP := [53]
  DataDir := "/data/"
  Checkpoint := true
  EngineAuthType := "dockercfg"
  EngineAuthData := [1]
  UpdatesEnabled := true
  UpdateDownloadDir := "/cache"
  DisableMetrics := true
  DockerGraphPath := "/var/lib/docker"
  ReservedMemory := 128
  EngineLogDriver := "syslog"
  EngineLogOpts := "tag"

/-- Witness for C6 at a concrete complete record merged with a record holding
fresh values everywhere. -/
theorem merge_preserves_complete_witness :
    (fullConfig.Merge DefaultConfig).Complete = true :=
  merge_preserves_complete fullConfig DefaultConfig (by decide)

/-- C4: in `NewConfig`, the file provider runs exactly when the
environment-derived record is not `Complete`, and the metadata provider runs
exactly when additionally `AWSRegion` is still empty after the file merge. -/
theorem newConfig_provider_invocation (tags : TagSchema) (env : Env)
    (decode : String → Option Config) (fs : FileState)
    (meta : Option String) :
    (NewConfigT tags env decode fs meta).fileInvoked =
      !(EnvironmentConfig env).Complete ∧
    (NewConfigT tags env decode fs meta).metaInvoked =
      (!(EnvironmentConfig env).Complete &&
        ((EnvironmentConfig env).Merge (FileConfig decode fs)).AWSRegion
          == "") := by
  by_cases h : (EnvironmentConfig env).Complete = true
  · simp [NewConfigT, h]
  · have h' : (EnvironmentConfig env).Complete = false := by
      simpa using h
    by_cases h2 :
        ((EnvironmentConfig env).Merge (FileConfig decode fs)).AWSRegion = ""
    · simp [NewConfigT, h', h2]
    · simp [NewConfigT, h', h2]

/-- A tag assignment putting the fatal-required policy on `DockerEndpoint`
(index 4), a field whose compiled-in default is non-empty; all other tags
absent. -/
def fatalDockerEndpointTags : TagSchema where
  missingTag := fun i => if i.val = 4 then "fatal" else ""
  deprecatedTag := fun _ => ""
  trimTag := fun _ => ""

/-- C1: against the claim, the deferred block of `NewConfig` runs
`CheckMissingAndDepreciated` *before* `Merge(DefaultConfig())`, so with every
source empty and the fatal-required tag on `DockerEndpoint`, the returned
error names `DockerEndpoint` even though the returned record's
`DockerEndpoint` field holds the non-empty compiled-in default. -/
theorem newConfig_error_names_defaulted_field :
    (NewConfigT fatalDockerEndpointTags (fun _ => "") (fun _ => none)
        FileState.missing none).err =
      some "Missing required fields: DockerEndpoint" ∧
    zeroOrNilStr
      ((NewConfigT fatalDockerEndpointTags (fun _ => "") (fun _ => none)
          FileState.missing none).config.DockerEndpoint) = false ∧
    zeroOrNilStr DefaultConfig.DockerEndpoint = false := by
  exact ⟨rfl, rfl, rfl⟩

/-- C5 counterexample: a file that opens but fails to read (`ioutil.ReadAll`
error) makes `FileConfig` log "Unable to read config file" at error level —
the claim places the unreadable case among the silent ones.  The returned
record is still the zero record. -/
theorem fileConfig_unreadable_logs_error :
    (FileConfigW (fun _ => none) FileState.unreadable).2 = true ∧
    (FileConfigW (fun _ => none) FileState.unreadable).1 = emptyConfig := by
  exact ⟨rfl, rfl⟩

/-- C5 as amended: a missing or blank file yields the zero record with no
logged error; an unreadable or malformed file yields the zero record plus a
logged error; a file that decodes applies the deprecated-key migration
(`ClusterArn` copied into an empty `Cluster`) and logs nothing. -/
theorem fileConfig_outcomes (decode : String → Option Config) (s : String) :
    FileConfigW decode FileState.missing = (emptyConfig, false) ∧
    FileConfigW decode FileState.unreadable = (emptyConfig, true) ∧
    (isBlank s = true →
      FileConfigW decode (FileState.content s) = (emptyConfig, false)) ∧
    (isBlank s = false → decode s = none →
      FileConfigW decode (FileState.content s) = (emptyConfig, true)) ∧
    (∀ c, isBlank s = false → decode s = some c →
      FileConfigW decode (FileState.content s) =
        ((if zeroOrNilStr c.Cluster && !zeroOrNilStr c.ClusterArn then
            { c with Cluster := c.ClusterArn }
          else c), false)) := by
  refine ⟨rfl, rfl, ?_, ?_, ?_⟩
  · intro h
    simp [FileConfigW, h, zeroOrNilStr, emptyConfig]
  · intro h hdec
    simp [FileConfigW, h, hdec, zeroOrNilStr, emptyConfig]
  · intro c h hdec
    simp [FileConfigW, h, hdec]

/-- A decoded file record carrying only the deprecated `ClusterArn` key. -/
def legacyFileRecord : Config := { emptyConfig with ClusterArn := "arn:legacy" }

/-- Witness for C5 at concrete inputs: a whitespace-only file is silent and
empty; a malformed file is empty with a logged error; a decoded record with
only the legacy key gets it copied into `Cluster`. -/
theorem fileConfig_outcomes_witness :
    FileConfigW (fun _ => none) (FileState.content " \t\n") =
      (emptyConfig, false) ∧
    FileConfigW (fun _ => none) (FileState.content "not json") =
      (emptyConfig, true) ∧
    FileConfigW (fun _ => some legacyFileRecord) (FileState.content "x") =
      ((if zeroOrNilStr legacyFileRecord.Cluster &&
            !zeroOrNilStr legacyFileRecord.ClusterArn then
          { legacyFileRecord with Cluster := legacyFileRecord.ClusterArn }
        else legacyFileRecord), false) :=
  ⟨(fileConfig_outcomes (fun _ => none) " \t\n").2.2.1 (by decide),
   (fileConfig_outcomes (fun _ => none) "not json").2.2.2.1 (by decide) rfl,
   (fileConfig_outcomes (fun _ => some legacyFileRecord) "x").2.2.2.2
     legacyFileRecord (by decide) rfl⟩

/-- C7: the checkpoint field equals the value of `ECS_CHECKPOINT` whenever
that variable parses as a boolean, and otherwise defaults to whether
`ECS_DATADIR` is set (non-empty): false when unset, true when set. -/
theorem envConfig_checkpoint_coupling (env : Env) :
    (EnvironmentConfig env).Checkpoint =
      (parseGoBool (env "ECS_CHECKPOINT")).getD
        (env "ECS_DATADIR" != "") := by
  by_cases h : env "ECS_DATADIR" = ""
  · simp [EnvironmentConfig, EnvironmentConfigW, parseBool, h]
  · have hb : (env "ECS_DATADIR" != "") = true := by simp [h]
    simp [EnvironmentConfig, EnvironmentConfigW, parseBool, h, hb]

/-- C8: the trim pass maps every trim-tagged string field to its
whitespace-stripped value and leaves every other field — including a
trim-tagged field of non-string kind — unchanged; a warning is logged exactly
for the trim-tagged non-string fields.  The pass is a total function: no
field kind makes it crash. -/
theorem trimWhitespace_field_semantics (tags : TagSchema) (cfg : Config)
    (i : Fin 18) :
    ((cfg.TrimWhitespace tags).field i =
      match cfg.field i with
      | .str s => .str (if tags.trimTag i == "" then s else trimSpace s)
      | v => v) ∧
    (i ∈ (cfg.TrimWhitespaceW tags).2 ↔
      tags.trimTag i ≠ "" ∧ isStringIdx i = false) := by
  constructor
  · fin_cases i <;>
      simp [Config.TrimWhitespace, Config.TrimWhitespaceW, Config.field,
        Config.fieldList, trimIf]
  · simp [Config.TrimWhitespaceW, List.mem_filter, List.mem_finRange]

/-- Which variables the environment provider warns about: exactly the
JSON-array or memory variables whose decode raised a warning. -/
theorem envWarnings_mem (env : Env) (v : String) :
    v ∈ (EnvironmentConfigW env).2 ↔
      (v = "ECS_RESERVED_PORTS" ∧
        (decodePortsVar (env "ECS_RESERVED_PORTS")).2 = true) ∨
      (v = "ECS_RESERVED_PORTS_UDP" ∧
        (decodePortsVar (env "ECS_RESERVED_PORTS_UDP")).2 = true) ∨
      (v = "ECS_RESERVED_MEMORY" ∧
        (decodeReservedMemoryVar (env "ECS_RESERVED_MEMORY")).2 = true) := by
  cases h1 : (decodePortsVar (env "ECS_RESERVED_PORTS")).2 <;>
    cases h2 : (decodePortsVar (env "ECS_RESERVED_PORTS_UDP")).2 <;>
      cases h3 : (decodeReservedMemoryVar (env "ECS_RESERVED_MEMORY")).2 <;>
        simp [EnvironmentConfigW, h1, h2, h3]

/-- The environment with `ECS_RESERVED_PORTS` set to a single space and every
other variable unset. -/
def envSpacePorts : Env :=
  fun v => if v = "ECS_RESERVED_PORTS" then " " else ""

/-- C9 counterexample: `ECS_RESERVED_PORTS` set to `" "` is non-empty and is
not a well-formed JSON array, yet the provider logs no warning (a blank
string gives the decoder `io.EOF`, which the source exempts — "EOF means the
string was blank"); the field is left empty. -/
theorem reservedPorts_whitespace_no_warning :
    envSpacePorts "ECS_RESERVED_PORTS" ≠ "" ∧
    parseJsonU16Array (envSpacePorts "ECS_RESERVED_PORTS") = none ∧
    (EnvironmentConfigW envSpacePorts).2 = [] ∧
    (EnvironmentConfig envSpacePorts).ReservedPorts = [] := by
  exact ⟨by decide, rfl, rfl, rfl⟩

/-- C9 as amended: a blank value (empty or whitespace-only) for either
JSON-array variable logs no warning and leaves the field empty; a non-blank
value that fails to decode logs a warning and likewise leaves the field
empty. -/
theorem reservedPorts_env_outcomes (env : Env) :
    (isBlank (env "ECS_RESERVED_PORTS") = true →
      (EnvironmentConfig env).ReservedPorts = [] ∧
        "ECS_RESERVED_PORTS" ∉ (EnvironmentConfigW env).2) ∧
    (isBlank (env "ECS_RESERVED_PORTS") = false →
      parseJsonU16Array (env "ECS_RESERVED_PORTS") = none →
      (EnvironmentConfig env).ReservedPorts = [] ∧
        "ECS_RESERVED_PORTS" ∈ (EnvironmentConfigW env).2) ∧
    (isBlank (env "ECS_RESERVED_PORTS_UDP") = true →
      (EnvironmentConfig env).ReservedPortsUDP = [] ∧
        "ECS_RESERVED_PORTS_UDP" ∉ (EnvironmentConfigW env).2) ∧
    (isBlank (env "ECS_RESERVED_PORTS_UDP") = false →
      parseJsonU16Array (env "ECS_RESERVED_PORTS_UDP") = none →
      (EnvironmentConfig env).ReservedPortsUDP = [] ∧
        "ECS_RESERVED_PORTS_UDP" ∈ (EnvironmentConfigW env).2) := by
  refine ⟨fun h => ⟨?_, ?_⟩, fun h hp => ⟨?_, ?_⟩,
    fun h => ⟨?_, ?_⟩, fun h hp => ⟨?_, ?_⟩⟩
  · simp [EnvironmentConfig, EnvironmentConfigW, decodePortsVar, h]
  · rw [envWarnings_mem]
    simp [decodePortsVar, h]
  · simp [EnvironmentConfig, EnvironmentConfigW, decodePortsVar, h, hp]
  · rw [envWarnings_mem]
    simp [decodePortsVar, h, hp]
  · simp [EnvironmentConfig, EnvironmentConfigW, decodePortsVar, h]
  · rw [envWarnings_mem]
    simp [decodePortsVar, h]
  · simp [EnvironmentConfig, EnvironmentConfigW, decodePortsVar, h, hp]
  · rw [envWarnings_mem]
    simp [decodePortsVar, h, hp]

/-- The environment with `ECS_RESERVED_PORTS_UDP` set to a malformed value
and every other variable unset. -/
def envBadUDP : Env :=
  fun v => if v = "ECS_RESERVED_PORTS_UDP" then "nope" else ""

/-- Witness for C9 at concrete inputs: every variable unset — no warning and
an empty TCP list; a malformed UDP value — a warning and an empty UDP list. -/
theorem reservedPorts_env_outcomes_witness :
    ((EnvironmentConfig (fun _ => "")).ReservedPorts = [] ∧
      "ECS_RESERVED_PORTS" ∉ (EnvironmentConfigW (fun _ => "")).2) ∧
    ((EnvironmentConfig envBadUDP).ReservedPortsUDP = [] ∧
      "ECS_RESERVED_PORTS_UDP" ∈ (EnvironmentConfigW envBadUDP).2) :=
  ⟨(reservedPorts_env_outcomes (fun _ => "")).1 (by decide),
   (reservedPorts_env_outcomes envBadUDP).2.2.2 (by decide) (by decide)⟩

/-- C10: the reserved-memory field is the exact value of
`ECS_RESERVED_MEMORY` whenever it parses as an unsigned 16-bit integer (no
warning); the empty string gives 0 with no warning; a non-empty unparseable
value gives 0 with a warning; in particular a decimal value of `2 ^ 16` or
more gives 0 with a warning — never the value reduced modulo `2 ^ 16`. -/
theorem reservedMemory_env_semantics (env : Env) :
    (∀ n, parseUint16 (env "ECS_RESERVED_MEMORY") = some n →
      (EnvironmentConfig env).ReservedMemory = n ∧
        "ECS_RESERVED_MEMORY" ∉ (EnvironmentConfigW env).2) ∧
    (env "ECS_RESERVED_MEMORY" = "" →
      (EnvironmentConfig env).ReservedMemory = 0 ∧
        "ECS_RESERVED_MEMORY" ∉ (EnvironmentConfigW env).2) ∧
    (env "ECS_RESERVED_MEMORY" ≠ "" →
      parseUint16 (env "ECS_RESERVED_MEMORY") = none →
      (EnvironmentConfig env).ReservedMemory = 0 ∧
        "ECS_RESERVED_MEMORY" ∈ (EnvironmentConfigW env).2) ∧
    (∀ n, parseDecNat (env "ECS_RESERVED_MEMORY") = some n → 65536 ≤ n →
      (EnvironmentConfig env).ReservedMemory = 0 ∧
        "ECS_RESERVED_MEMORY" ∈ (EnvironmentConfigW env).2) := by
  have hblank : parseUint16 "" = none := by decide
  refine ⟨?_, ?_, ?_, ?_⟩
  · intro n hp
    have hne : env "ECS_RESERVED_MEMORY" ≠ "" := by
      intro h0
      rw [h0, hblank] at hp
      exact Option.noConfusion hp
    refine ⟨?_, ?_⟩
    · simp [EnvironmentConfig, EnvironmentConfigW, decodeReservedMemoryVar,
        hne, hp]
    · rw [envWarnings_mem]
      simp [decodeReservedMemoryVar, hne, hp]
  · intro h
    refine ⟨?_, ?_⟩
    · simp [EnvironmentConfig, EnvironmentConfigW, decodeReservedMemoryVar, h]
    · rw [envWarnings_mem]
      simp [decodeReservedMemoryVar, h]
  · intro h hp
    refine ⟨?_, ?_⟩
    · simp [EnvironmentConfig, EnvironmentConfigW, decodeReservedMemoryVar,
        h, hp]
    · rw [envWarnings_mem]
      simp [decodeReservedMemoryVar, h, hp]
  · intro n hd hge
    have hp : parseUint16 (env "ECS_RESERVED_MEMORY") = none := by
      simp [parseUint16, hd, Nat.not_lt.mpr hge]
    have hne : env "ECS_RESERVED_MEMORY" ≠ "" := by
      intro h0
      have hd0 : parseDecNat "" = none := by decide
      rw [h0, hd0] at hd
      exact Option.noConfusion hd
    refine ⟨?_, ?_⟩
    · simp [EnvironmentConfig, EnvironmentConfigW, decodeReservedMemoryVar,
        hne, hp]
    · rw [envWarnings_mem]
      simp [decodeReservedMemoryVar, hne, hp]

/-- The environment with `ECS_RESERVED_MEMORY` set to `s` and every other
variable unset. -/
def envReservedMemory (s : String) : Env :=
  fun v => if v = "ECS_RESERVED_MEMORY" then s else ""

/-- Witness for C10 at concrete inputs: `"123"` gives exactly 123 with no
warning; `"70000"` (out of 16-bit range, `70000 % 2 ^ 16 = 4464`) gives 0
with a warning. -/
theorem reservedMemory_env_semantics_witness :
    ((EnvironmentConfig (envReservedMemory "123")).ReservedMemory = 123 ∧
      "ECS_RESERVED_MEMORY" ∉ (EnvironmentConfigW (envReservedMemory "123")).2) ∧
    ((EnvironmentConfig (envReservedMemory "70000")).ReservedMemory = 0 ∧
      "ECS_RESERVED_MEMORY" ∈ (EnvironmentConfigW (envReservedMemory "70000")).2) :=
  ⟨(reservedMemory_env_semantics (envReservedMemory "123")).1 123 (by decide),
   (reservedMemory_env_semantics (envReservedMemory "70000")).2.2.2 70000
     (by decide) (by decide)⟩

end ECSConfig
